import Mathlib

/-!
Verification of the embedding and matching engine of the
ai-accounting-job-matching repository, against its natural-language
specification.  The Python source is shallowly embedded: stateful code
(the Redis-backed rate limiter, the job-match table) is modelled by
explicit state passing, fallible code returns `Except`, machine floats
are modelled by `ℚ` (only order and equality of scores matter to the
claims), and external collaborators (the OpenAI provider, the tiktoken
tokenizer, the pgvector cosine-distance operator, missing repository
methods) are parameters of the embedded functions.
-/

/-- Python exception values raised by the embedded code, tagged by the
exception class defined in app/core/exceptions.py together with the
message the source constructs. -/
inductive PyError where
  | rateLimitError (m : String)
  | validationError (m : String)
  | openAIError (m : String)
  | valueError (m : String)
  | databaseError (m : String)
  | userError (m : String)
  | jobMatchingError (m : String)
  | attributeError (m : String)
  | typeError (m : String)
  deriving Repr, DecidableEq

/-- The Python exception class of an embedded error. -/
def PyError.exClass : PyError → String
  | .rateLimitError _ => "RateLimitError"
  | .validationError _ => "ValidationError"
  | .openAIError _ => "OpenAIError"
  | .valueError _ => "ValueError"
  | .databaseError _ => "DatabaseError"
  | .userError _ => "UserError"
  | .jobMatchingError _ => "JobMatchingError"
  | .attributeError _ => "AttributeError"
  | .typeError _ => "TypeError"

/-- The message carried by an embedded error. -/
def PyError.message : PyError → String
  | .rateLimitError m => m
  | .validationError m => m
  | .openAIError m => m
  | .valueError m => m
  | .databaseError m => m
  | .userError m => m
  | .jobMatchingError m => m
  | .attributeError m => m
  | .typeError m => m

/-- Whether the error is an instance of the `JobMatchingError` hierarchy
of app/core/exceptions.py (every application error class subclasses it;
builtin `ValueError`, `AttributeError` and `TypeError` do not). -/
def PyError.isJobMatchingError : PyError → Bool
  | .rateLimitError _ => true
  | .validationError _ => true
  | .openAIError _ => true
  | .databaseError _ => true
  | .userError _ => true
  | .jobMatchingError _ => true
  | .valueError _ => false
  | .attributeError _ => false
  | .typeError _ => false

instance exceptDecEq {ε α : Type} [DecidableEq ε] [DecidableEq α] :
    DecidableEq (Except ε α)
  | .ok x, .ok y => decidable_of_iff (x = y) (by simp)
  | .ok _, .error _ => isFalse (by simp)
  | .error _, .ok _ => isFalse (by simp)
  | .error x, .error y => decidable_of_iff (x = y) (by simp)

/-! ## Redis counter store (app/core/rate_limit.py uses INCR / EXPIREAT / GET)

The shared counter store is an association list from keys to entries.
An entry is live at time `t` when it has no expiry or its expiry
timestamp lies strictly in the future; expired keys behave as absent,
matching Redis key expiry. -/

/-- One Redis value used by the limiter: a counter plus an optional
absolute expiry timestamp (seconds). -/
structure RedisEntry where
  count : Nat
  expireAt : Option Nat
  deriving Repr, DecidableEq

/-- The shared counter store, keyed by limiter key strings. -/
abbrev RedisStore := List (String × RedisEntry)

/-- Raw lookup of a key, ignoring expiry. -/
def redisLookup (s : RedisStore) (k : String) : Option RedisEntry :=
  match s.find? (fun p => p.1 == k) with
  | some p => some p.2
  | none => none

/-- Liveness of an entry at time `t`: no expiry, or expiry in the future. -/
def RedisEntry.live (e : RedisEntry) (t : Nat) : Bool :=
  match e.expireAt with
  | none => true
  | some x => t < x

/-- Redis GET of a counter at time `t`: expired keys read as absent.
GET does not mutate the store. -/
def redisGet (s : RedisStore) (t : Nat) (k : String) : Option Nat :=
  match redisLookup s k with
  | some e => if e.live t then some e.count else none
  | none => none

/-- Replace (or insert) the entry stored under key `k`. -/
def redisSet (s : RedisStore) (k : String) (e : RedisEntry) : RedisStore :=
  match s with
  | [] => [(k, e)]
  | (k₂, e₂) :: rest =>
      if k₂ = k then (k, e) :: rest else (k₂, e₂) :: redisSet rest k e

/-- Redis INCR at time `t`: a live key keeps its expiry and its counter
grows by one; an absent or expired key is recreated with counter 1 and
no expiry.  Returns the new store and the post-increment value. -/
def redisIncr (s : RedisStore) (t : Nat) (k : String) : RedisStore × Nat :=
  match redisLookup s k with
  | some e =>
      if e.live t then (redisSet s k ⟨e.count + 1, e.expireAt⟩, e.count + 1)
      else (redisSet s k ⟨1, none⟩, 1)
  | none => (redisSet s k ⟨1, none⟩, 1)

/-- Redis EXPIREAT: set the absolute expiry of an existing key. -/
def redisExpireAt (s : RedisStore) (k : String) (x : Nat) : RedisStore :=
  match redisLookup s k with
  | some e => redisSet s k ⟨e.count, some x⟩
  | none => s

/-! ## RateLimiter (app/core/rate_limit.py) -/

/-- Configuration of `RateLimiter.__init__`: key prefix, requests per
window, and window length in seconds.  (The Redis URL and connection
object are connection plumbing, represented by the explicit store and
the `storeOk` flag below.) -/
structure RateLimiter where
  keyPref : String
  max_requests : Nat
  window_seconds : Nat
  deriving Repr

/-- `RateLimiter._get_key`. -/
def RateLimiter.getKey (rl : RateLimiter) (identifier : String) : String :=
  rl.keyPref ++ ":" ++ identifier

/-- `int(now - (now % window_seconds))`, the start of the aligned window
containing `t`. -/
def windowStart (window_seconds t : Nat) : Nat :=
  t - t % window_seconds

/-- The `RateLimitInfo` dataclass: remaining capacity, window reset
timestamp, and the configured total. -/
structure RateLimitInfo where
  remaining : Int
  reset_at : Nat
  total : Nat
  deriving Repr, DecidableEq

/-- `RateLimiter.get_limit_info`: reads the counter with GET (and the
TTL, which the source discards) and computes remaining capacity and the
reset time of the current window.  GET is read-only, so the store is
returned unchanged. -/
def RateLimiter.get_limit_info (rl : RateLimiter) (s : RedisStore) (t : Nat)
    (identifier : String) : RedisStore × RateLimitInfo :=
  let ws := windowStart rl.window_seconds t
  match redisGet s t (rl.getKey identifier) with
  | none => (s, ⟨(rl.max_requests : Int), ws + rl.window_seconds, rl.max_requests⟩)
  | some count =>
      (s, ⟨max 0 ((rl.max_requests : Int) - (count : Int)),
           ws + rl.window_seconds, rl.max_requests⟩)

/-- `RateLimiter.acquire`: increments the shared counter; the first
increment in a window sets the key to expire at the end of the aligned
window; a count above `max_requests` raises `RateLimitError`.  A Redis
failure (`storeOk = false`, the `redis.RedisError` handler in the
source) is re-raised as `RateLimitError "Failed to check rate limit"`.
Returns the store (mutated even when the call fails with rate-limit
exhaustion, since the INCR already happened) and the outcome. -/
def RateLimiter.acquire (rl : RateLimiter) (storeOk : Bool) (s : RedisStore)
    (t : Nat) (identifier : String) : RedisStore × Except PyError Unit :=
  if !storeOk then
    (s, .error (.rateLimitError "Failed to check rate limit"))
  else
    let key := rl.getKey identifier
    let ws := windowStart rl.window_seconds t
    let incred := redisIncr s t key
    let s₂ := if incred.2 = 1 then redisExpireAt incred.1 key (ws + rl.window_seconds)
              else incred.1
    if incred.2 > rl.max_requests then
      let info := (rl.get_limit_info s₂ t identifier).2
      (s₂, .error (.rateLimitError
        ("Rate limit exceeded. Reset in " ++ toString (info.reset_at - t))))
    else
      (s₂, .ok ())

/-- A sequence of `acquire` calls at the given times, threading the
store; collects each call outcome. -/
def acquireSeq (rl : RateLimiter) (s : RedisStore) (ts : List Nat)
    (identifier : String) : RedisStore × List (Except PyError Unit) :=
  match ts with
  | [] => (s, [])
  | t :: rest =>
      let step := rl.acquire true s t identifier
      let next := acquireSeq rl step.1 rest identifier
      (next.1, step.2 :: next.2)

/-! ## EmbeddingService (app/services/embeddings.py)

The tiktoken tokenizer is an external collaborator and is passed as a
function `encode`; the OpenAI call is passed as `provider`, the
function from the validated text to the embedding the provider returns
(or the error it raises). -/

/-- `EmbeddingService.max_text_length`, the OpenAI token budget. -/
def max_text_length : Nat := 8191

/-- Left strip of Python `str.strip()`. -/
def trimLeftWS (l : List Char) : List Char := l.dropWhile Char.isWhitespace

/-- Right strip of Python `str.strip()`. -/
def trimRightWS (l : List Char) : List Char :=
  (l.reverse.dropWhile Char.isWhitespace).reverse

/-- The cleaning step of `_validate_text`:
`text.replace("\n", " ").strip()`, embedded character-wise (the
replacement pattern is the fixed single character `"\n"`, so the
substring replace is exactly a character map). -/
def clean_text (text : String) : String :=
  ⟨trimRightWS (trimLeftWS (text.data.map fun c => if c = '\n' then ' ' else c))⟩

/-- `EmbeddingService._validate_text`: rejects falsy (empty) input with
`ValidationError`, then cleans the text (newlines to spaces, strip) and
rejects a cleaned text whose token count exceeds the budget; otherwise
returns the cleaned text. -/
def validate_text (encode : String → List Nat) (text : String) :
    Except PyError String :=
  if text = "" then
    .error (.validationError "Text must be a non-empty string")
  else
    let cleaned := clean_text text
    let tokens := (encode cleaned).length
    if tokens > max_text_length then
      .error (.validationError
        ("Text is too long (" ++ toString tokens ++ " tokens). Maximum is "
          ++ toString max_text_length ++ " tokens."))
    else
      .ok cleaned

/-- `EmbeddingService.generate_embedding`, including the
`@openai_rate_limiter` decorator (`RateLimiter.__call__`): the wrapper
first acquires a slot under the function name, then the body validates
the text and calls the provider; `ValidationError` is re-raised as is,
any other provider failure is wrapped into
`OpenAIError "Failed to generate embedding"`.  No dimension check is
performed on the returned vector. -/
def generate_embedding (rl : RateLimiter) (storeOk : Bool) (s : RedisStore)
    (t : Nat) (encode : String → List Nat)
    (provider : String → Except PyError (List ℚ)) (text : String) :
    RedisStore × Except PyError (List ℚ) :=
  let acq := rl.acquire storeOk s t "generate_embedding"
  match acq.2 with
  | .error e => (acq.1, .error e)
  | .ok _ =>
      match validate_text encode text with
      | .error e => (acq.1, .error e)
      | .ok cleaned =>
          match provider cleaned with
          | .error _ => (acq.1, .error (.openAIError "Failed to generate embedding"))
          | .ok emb => (acq.1, .ok emb)

/-! ## Similarity search (app/repositories/job.py find_similar_jobs and
app/services/vector_search.py find_matching_jobs)

Both run a SQL query of the shape
`WHERE <filters> AND 1 - (embedding <=> query) >= min ORDER BY similarity DESC LIMIT n`.
The pgvector cosine-distance operator `<=>` is an external collaborator
and is passed as `cosDist`; a row score is `1 - cosDist rowEmbedding query`.
Rows of the job table joined with job_embeddings: -/

/-- A row of the job pool as the queries see it: id, the (nullable)
embedding from job_embeddings, the is_indexed flag and the three
filterable text columns. -/
structure JobRow where
  id : Nat
  embedding : Option (List ℚ)
  is_indexed : Bool
  location : String
  seniority : String
  service : String
  deriving Repr, DecidableEq

/-- SQL `ILIKE '%pat%'`: case-insensitive substring containment. -/
def ilike_contains (s pat : String) : Bool :=
  ((s.toLower).splitOn (pat.toLower)).length > 1

/-- An optional `ILIKE` clause: absent or empty (falsy) patterns add no
clause, mirroring the `if location:` guards in the source. -/
def opt_filter (field : String) : Option String → Bool
  | none => true
  | some pat => if pat = "" then true else ilike_contains field pat

/-- The join of the pool with its embeddings and the
`embedding IS NOT NULL` clause, scoring each remaining row by
`1 - cosDist e query`. -/
def scored_pool (cosDist : List ℚ → List ℚ → ℚ) (pool : List JobRow)
    (query : List ℚ) : List (JobRow × ℚ) :=
  pool.filterMap fun j =>
    match j.embedding with
    | some e => some (j, 1 - cosDist e query)
    | none => none

/-- The WHERE clause of `find_similar_jobs`: similarity threshold plus
the optional location / seniority / service filters. -/
def row_passes (min_similarity : ℚ) (location seniority service : Option String)
    (p : JobRow × ℚ) : Bool :=
  decide (min_similarity ≤ p.2) && opt_filter p.1.location location
    && opt_filter p.1.seniority seniority && opt_filter p.1.service service

/-- Rows above the threshold that satisfy every optional filter. -/
def passing_pool (cosDist : List ℚ → List ℚ → ℚ) (pool : List JobRow)
    (query : List ℚ) (min_similarity : ℚ)
    (location seniority service : Option String) : List (JobRow × ℚ) :=
  (scored_pool cosDist pool query).filter
    (row_passes min_similarity location seniority service)

/-- Descending-score order used by `ORDER BY similarity DESC`. -/
def scoreDesc (a b : JobRow × ℚ) : Prop := b.2 ≤ a.2

instance : DecidableRel scoreDesc :=
  fun a b => inferInstanceAs (Decidable (b.2 ≤ a.2))

instance : IsTotal (JobRow × ℚ) scoreDesc :=
  ⟨fun a b => le_total b.2 a.2⟩

instance : IsTrans (JobRow × ℚ) scoreDesc :=
  ⟨fun _ _ _ h₁ h₂ => le_trans h₂ h₁⟩

/-- `JobRepository.find_similar_jobs`: threshold and optional filters
first (WHERE), then descending sort (ORDER BY), then LIMIT, returning
(job id, similarity) pairs. -/
def find_similar_jobs (cosDist : List ℚ → List ℚ → ℚ) (pool : List JobRow)
    (query : List ℚ) (min_similarity : ℚ) (limit : Nat)
    (location seniority service : Option String) : List (Nat × ℚ) :=
  ((List.insertionSort scoreDesc
      (passing_pool cosDist pool query min_similarity location seniority service)).take
    limit).map fun p => (p.1.id, p.2)

/-- The query of `VectorSearchService.find_matching_jobs`: same shape,
with the fixed `j.is_indexed = true` clause instead of the optional
filters. -/
def vs_query (cosDist : List ℚ → List ℚ → ℚ) (pool : List JobRow)
    (query : List ℚ) (min_score : ℚ) (limit : Nat) : List (Nat × ℚ) :=
  ((List.insertionSort scoreDesc
      ((scored_pool cosDist pool query).filter
        (fun p => p.1.is_indexed && decide (min_score ≤ p.2)))).take
    limit).map fun p => (p.1.id, p.2)

/-! ## VectorSearchService (app/services/vector_search.py) -/

/-- A CV row with its (nullable) embedding from cv_embeddings. -/
structure CVRow where
  id : Nat
  embedding : Option (List ℚ)
  deriving Repr, DecidableEq

/-- `VectorSearchService.find_matching_jobs`: missing CV or missing
embedding raise `ValueError` (re-raised as is by the
`except ValueError` clause); an embedding of the wrong dimension raises
`ValueError`; otherwise the similarity query runs. -/
def find_matching_jobs (cosDist : List ℚ → List ℚ → ℚ) (pool : List JobRow)
    (cv? : Option CVRow) (min_score : ℚ) (limit : Nat) :
    Except PyError (List (Nat × ℚ)) :=
  match cv? with
  | none => .error (.valueError "CV not found")
  | some cv =>
      match cv.embedding with
      | none => .error (.valueError "CV has no embedding")
      | some emb =>
          if emb.length ≠ 1536 then
            .error (.valueError
              "Invalid embedding format: expected list of 1536 dimensions")
          else
            .ok (vs_query cosDist pool emb min_score limit)

/-- `VectorSearchService.update_job_embedding`: fetch the job, generate
an embedding from its description via the provider, validate the
dimension (a mismatch raises `ValueError`), then upsert into
job_embeddings (modelled by returning the upserted pair).  The
enclosing `except Exception` handler wraps every failure — including
the dimension `ValueError` — into
`DatabaseError "Failed to update job embedding"`. -/
def update_job_embedding (job_description : Option String)
    (provider : String → Except PyError (List ℚ)) (job_id : Nat) :
    Except PyError (Nat × List ℚ) :=
  let body : Except PyError (Nat × List ℚ) :=
    match job_description with
    | none => .error (.valueError ("Job " ++ toString job_id ++ " not found"))
    | some desc =>
        match provider desc with
        | .error e => .error e
        | .ok embedding =>
            if embedding.length ≠ 1536 then
              .error (.valueError
                "Invalid embedding format from OpenAI: expected list of 1536 dimensions")
            else
              .ok (job_id, embedding)
  match body with
  | .ok r => .ok r
  | .error _ => .error (.databaseError "Failed to update job embedding")

/-- `VectorSearchService.refresh_job_matches`: a user with no CV gets
an empty match list back (the `return []` branch); any failure of the
inner `find_matching_jobs` is wrapped into
`DatabaseError "Failed to refresh job matches"`. -/
def refresh_job_matches (cosDist : List ℚ → List ℚ → ℚ) (pool : List JobRow)
    (latest_cv : Option CVRow) (min_score : ℚ) (limit : Nat) :
    Except PyError (List (Nat × ℚ)) :=
  match latest_cv with
  | none => .ok []
  | some cv =>
      match find_matching_jobs cosDist pool (some cv) min_score limit with
      | .ok ms => .ok ms
      | .error _ => .error (.databaseError "Failed to refresh job matches")

/-! ## Matching orchestrator (app/services/job_matching.py)

Users and match records.  The job-match table is threaded explicitly:
`create_match` is the repository INSERT (`BaseRepository.create`), which
appends a new row unconditionally — the JobMatch model declares no
uniqueness constraint on (telegram_id, job_id).

Two attribute accesses in this module have no referent in the source:
the `User` model declares no `last_recommendations` column (and no
migration adds one), and `JobMatchingService` declares no `_get_repos`
method (nor does `BaseService`).  Both reads raise `AttributeError` and
are embedded as failing operations below. -/

/-- The user columns of app/models/user.py that the matching engine
reads: telegram id, the CV embedding and the preference dict.  The
model declares no `last_recommendations` column. -/
structure User where
  telegram_id : Int
  cv_embedding : Option (List ℚ)
  preferences : Option (List (String × String))
  deriving Repr

/-- A persisted job match row (`JobMatch` model). -/
structure MatchRecord where
  telegram_id : Int
  job_id : Nat
  score : ℚ
  deriving Repr, DecidableEq

/-- `JobMatchRepository.create_match`: an unconditional INSERT of a new
row; returns the new table and the created row. -/
def create_match (table : List MatchRecord) (telegram_id : Int) (job_id : Nat)
    (score : ℚ) : List MatchRecord × MatchRecord :=
  (table ++ [⟨telegram_id, job_id, score⟩], ⟨telegram_id, job_id, score⟩)

/-- Python truthiness of an optional list (None and [] are falsy). -/
def truthyList {α : Type} : Option (List α) → Option (List α)
  | none => none
  | some [] => none
  | some (x :: xs) => some (x :: xs)

/-- `dict.get` on the preference dict. -/
def dict_get (d : List (String × String)) (k : String) : Option String :=
  match d.find? (fun p => p.1 == k) with
  | some p => some p.2
  | none => none

/-- The attribute read `user.last_recommendations`: app/models/user.py
declares no such column, so the access raises `AttributeError` on every
`User` instance. -/
def user_last_recommendations (_u : User) : Except PyError (Option ℚ) :=
  .error (.attributeError "User object has no attribute last_recommendations")

/-- `JobRecommendationService._should_generate_recommendations`: reads
`user.last_recommendations` — which raises — before its generate-once-
per-day branches (kept from the source text, but unreachable) could
run. -/
def should_generate_recommendations (now : ℚ) (u : User) :
    Except PyError Bool :=
  match user_last_recommendations u with
  | .error e => .error e
  | .ok none => .ok true
  | .ok (some last) => .ok (decide ((now - last) / 3600 ≥ 24))

/-- The `await self._get_repos()` call of `JobMatchingService`: no
method of that name exists on the class or its base, so both call sites
raise `AttributeError`. -/
def jms_get_repos : Except PyError Unit :=
  .error (.attributeError "JobMatchingService object has no attribute _get_repos")

/-- `JobMatchingService.search_jobs` (the embedding overload): resolves
its repositories through the missing `_get_repos` — which raises — then
would pull location and service out of the preferences and delegate to
`find_similar_jobs` with `min_similarity = 0.7`. -/
def search_jobs_svc (cosDist : List ℚ → List ℚ → ℚ) (pool : List JobRow)
    (embedding : List ℚ) (preferences : List (String × String))
    (limit : Nat) : Except PyError (List (Nat × ℚ)) :=
  match jms_get_repos with
  | .error e => .error e
  | .ok _ =>
      let location := dict_get preferences "location"
      let service := dict_get preferences "service"
      .ok (find_similar_jobs cosDist pool embedding (7/10) limit
        location none service)

/-- The per-result loop of `save_job_matches`: one `create_match`
INSERT per search result, collecting the saved (job id, score)
pairs. -/
def save_job_matches_loop (table : List MatchRecord) (telegram_id : Int) :
    List (Nat × ℚ) → List MatchRecord × List (Nat × ℚ)
  | [] => (table, [])
  | m :: rest =>
      let step := create_match table telegram_id m.1 m.2
      let next := save_job_matches_loop step.1 telegram_id rest
      (next.1, (step.2.job_id, step.2.score) :: next.2)

/-- `JobMatchingService.save_job_matches`: resolves its repositories
through the missing `_get_repos` — which raises before the insert loop
can run. -/
def save_job_matches (table : List MatchRecord) (telegram_id : Int)
    (ms : List (Nat × ℚ)) :
    List MatchRecord × Except PyError (List (Nat × ℚ)) :=
  match jms_get_repos with
  | .error e => (table, .error e)
  | .ok _ =>
      let out := save_job_matches_loop table telegram_id ms
      (out.1, .ok out.2)

/-- `JobMatchingService.generate_job_matches`: search with limit 50,
then persist every result; both halves fail at `_get_repos`. -/
def generate_job_matches (cosDist : List ℚ → List ℚ → ℚ)
    (pool : List JobRow) (table : List MatchRecord) (telegram_id : Int)
    (cv_embedding : List ℚ) (preferences : List (String × String)) :
    List MatchRecord × Except PyError (List (Nat × ℚ)) :=
  match search_jobs_svc cosDist pool cv_embedding preferences 50 with
  | .error e => (table, .error e)
  | .ok ms => save_job_matches table telegram_id ms

/-- `JobRecommendationService.generate_recommendations`: looks the user
up; on a non-forced run, evaluates the freshness check — whose
`user.last_recommendations` read raises, uncaught (the `except
SQLAlchemyError` handler neither names an imported symbol nor would
match an `AttributeError`) — before anything else; on a forced run the
check is short-circuited, the embedding falls back from the argument to
the stored one (Python truthiness: None and [] fall through, raising
`UserError` when both are falsy), the preference dict is resolved
(`preferences or user.preferences or {}`), and match generation is
attempted — which fails at the missing `_get_repos` before any insert.
No path updates any freshness timestamp or reaches `create_match`. -/
def generate_recommendations (cosDist : List ℚ → List ℚ → ℚ)
    (pool : List JobRow) (table : List MatchRecord) (now : ℚ)
    (user? : Option User) (telegram_id : Int)
    (cv_embedding : Option (List ℚ))
    (preferences : Option (List (String × String))) (force : Bool) :
    List MatchRecord × Except PyError (List (Nat × ℚ)) :=
  match user? with
  | none => (table, .error (.userError "User not found"))
  | some user =>
      let cont : List MatchRecord × Except PyError (List (Nat × ℚ)) :=
        match (truthyList cv_embedding).or (truthyList user.cv_embedding) with
        | none => (table, .error (.userError "No CV embedding found"))
        | some emb =>
            let prefs :=
              ((truthyList preferences).or (truthyList user.preferences)).getD []
            generate_job_matches cosDist pool table telegram_id emb prefs
      if force then cont
      else
        match should_generate_recommendations now user with
        | .error e => (table, .error e)
        | .ok sg => if !sg then (table, .ok []) else cont

/-- `safe_execute(func, error_message, **kwargs)` from
app/core/exceptions.py: runs `func()` — with no arguments — and wraps
any exception that is not already a `JobMatchingError` into a
`JobMatchingError` (error code EXECUTION_ERROR) carrying
`error_message`.  `funcResult` is the outcome of the nullary call. -/
def safe_execute {α : Type} (funcResult : Except PyError α)
    (error_message : String) : Except PyError α :=
  match funcResult with
  | .ok a => .ok a
  | .error e =>
      if e.isJobMatchingError then .error e
      else .error (.jobMatchingError error_message)

/-- `self.user_repo.get_by_telegram_id` invoked with no arguments, as
`safe_execute` invokes it: the method requires its `telegram_id`
argument, so the call raises `TypeError` before any lookup happens. -/
def get_by_telegram_id_nullary : Except PyError (Option User) :=
  .error (.typeError "get_by_telegram_id missing 1 required positional argument")

/-- `JobMatchingService.match_jobs_for_user`: every repository call is
routed through `safe_execute(func, telegram_id, error_msg=...)`, whose
second positional parameter is `error_message` — so `telegram_id` binds
to the message and `func()` is invoked with no arguments.  The first
such call (the user lookup) raises `TypeError`, which `safe_execute`
wraps into a `JobMatchingError` whose message is the misbound
`telegram_id`; the function fails this way for every input, the
user-not-found / no-CV branches below (kept from the source text) are
unreachable, and no match record is created on any path. -/
def match_jobs_for_user (find_matches : List ℚ → Nat → List (Nat × ℚ))
    (get_by_ids : List Nat → List JobRow) (telegram_id : Int) (limit : Nat) :
    Except PyError (List (JobRow × ℚ)) :=
  match safe_execute get_by_telegram_id_nullary (toString telegram_id) with
  | .error e => .error e
  | .ok user? =>
      match user? with
      | none => .error (.userError ("User " ++ toString telegram_id ++ " not found"))
      | some u =>
          match truthyList u.cv_embedding with
          | none => .error (.userError "User has no CV uploaded")
          | some emb =>
              let found := find_matches emb limit
              let jobs := get_by_ids (found.map (fun m => m.1))
              .ok (found.filterMap fun m =>
                match jobs.find? (fun j => j.id == m.1) with
                | some j => some (j, m.2)
                | none => none)

/-! ## Batch task (app/tasks/jobs.py update_job_embeddings) -/

/-- A value of the result dict a task returns. -/
inductive DictVal where
  | bool (b : Bool)
  | num (n : Nat)
  deriving Repr, DecidableEq

/-- Lookup in a task result dict. -/
def dict_val (d : List (String × DictVal)) (k : String) : Option DictVal :=
  match d.find? (fun p => p.1 == k) with
  | some p => some p.2
  | none => none

/-- The per-item loop of `update_job_embeddings`: embed each job text;
a per-item failure is logged and skipped, a success bumps
`updated_count`. -/
def update_loop {α : Type} (embed : α → Except PyError (List ℚ)) :
    List α → Nat → Nat
  | [], acc => acc
  | j :: rest, acc =>
      match embed j with
      | .ok _ => update_loop embed rest (acc + 1)
      | .error _ => update_loop embed rest acc

/-- `update_job_embeddings`: reading the batch of jobs is a batch-level
operation whose failure propagates (the outer `except ... raise`); each
item is embedded inside its own try/except, so item failures never
abort the loop; the task returns
`{"success": True, "updated_count": n}` — and no other keys. -/
def update_job_embeddings {α : Type} (jobs : Except PyError (List α))
    (embed : α → Except PyError (List ℚ)) :
    Except PyError (List (String × DictVal)) :=
  match jobs with
  | .error e => .error e
  | .ok js =>
      .ok [("success", .bool true), ("updated_count", .num (update_loop embed js 0))]

/-! ## Helper lemmas -/

theorem redisLookup_redisSet (s : RedisStore) (k : String) (e : RedisEntry) :
    redisLookup (redisSet s k e) k = some e := by
  induction s with
  | nil => simp [redisSet, redisLookup, List.find?]
  | cons hd tl ih =>
      obtain ⟨k₂, e₂⟩ := hd
      by_cases h : k₂ = k
      · simp [redisSet, h, redisLookup, List.find?]
      · simpa [redisSet, h, redisLookup, List.find?] using ih

theorem lt_windowStart_add {W : ℕ} (hW : 0 < W) (t : ℕ) :
    t < windowStart W t + W := by
  unfold windowStart
  have h₁ : t % W < W := Nat.mod_lt t hW
  have h₂ : t % W ≤ t := Nat.mod_le t W
  omega

theorem redisIncr_val (s : RedisStore) (t : ℕ) (k : String) :
    (redisIncr s t k).2 = (redisGet s t k).getD 0 + 1 := by
  unfold redisIncr redisGet
  cases h : redisLookup s k with
  | none => simp
  | some e => cases hl : e.live t <;> simp [hl]

theorem redisIncr_of_get_none {s : RedisStore} {t : ℕ} {k : String}
    (h : redisGet s t k = none) :
    redisIncr s t k = (redisSet s k ⟨1, none⟩, 1) := by
  unfold redisGet at h
  unfold redisIncr
  cases hl : redisLookup s k with
  | none => simp
  | some e =>
      rw [hl] at h
      cases hlive : e.live t
      · simp [hlive]
      · simp [hlive] at h

theorem RedisEntry.live_of_expiry {t x : ℕ} (h : t < x) (c : ℕ) :
    RedisEntry.live ⟨c, some x⟩ t = true := by
  simp [RedisEntry.live, h]

theorem acquire_store_eq (rl : RateLimiter) (s : RedisStore) (t : ℕ)
    (id : String) :
    (rl.acquire true s t id).1
      = (if (redisIncr s t (rl.getKey id)).2 = 1 then
          redisExpireAt (redisIncr s t (rl.getKey id)).1 (rl.getKey id)
            (windowStart rl.window_seconds t + rl.window_seconds)
         else (redisIncr s t (rl.getKey id)).1) := by
  unfold RateLimiter.acquire
  simp only [Bool.not_true, Bool.false_eq_true, if_false]
  by_cases h : (redisIncr s t (rl.getKey id)).2 > rl.max_requests
  · simp [h]
  · simp [h]

theorem redisGet_acquire_true (rl : RateLimiter) (s : RedisStore) (t : ℕ)
    (id : String) (hW : 0 < rl.window_seconds) :
    redisGet ((rl.acquire true s t id).1) t (rl.getKey id)
      = some ((redisGet s t (rl.getKey id)).getD 0 + 1) := by
  rw [acquire_store_eq]
  have hlt : t < windowStart rl.window_seconds t + rl.window_seconds :=
    lt_windowStart_add hW t
  cases hl : redisLookup s (rl.getKey id) with
  | none =>
      have hget : redisGet s t (rl.getKey id) = none := by
        unfold redisGet; simp [hl]
      have hincr : redisIncr s t (rl.getKey id)
          = (redisSet s (rl.getKey id) ⟨1, none⟩, 1) := by
        unfold redisIncr; simp [hl]
      rw [hget]
      simp [hincr, redisExpireAt, redisLookup_redisSet, redisGet,
        RedisEntry.live_of_expiry hlt]
  | some e =>
      cases hlive : e.live t with
      | false =>
          have hget : redisGet s t (rl.getKey id) = none := by
            unfold redisGet; simp [hl, hlive]
          have hincr : redisIncr s t (rl.getKey id)
              = (redisSet s (rl.getKey id) ⟨1, none⟩, 1) := by
            unfold redisIncr; simp [hl, hlive]
          rw [hget]
          simp [hincr, redisExpireAt, redisLookup_redisSet, redisGet,
            RedisEntry.live_of_expiry hlt]
      | true =>
          have hget : redisGet s t (rl.getKey id) = some e.count := by
            unfold redisGet; simp [hl, hlive]
          have hincr : redisIncr s t (rl.getKey id)
              = (redisSet s (rl.getKey id) ⟨e.count + 1, e.expireAt⟩, e.count + 1) := by
            unfold redisIncr; simp [hl, hlive]
          rw [hget]
          by_cases hc : e.count + 1 = 1
          · have hc0 : e.count = 0 := by omega
            simp [hincr, hc, hc0, redisExpireAt, redisLookup_redisSet, redisGet,
              RedisEntry.live_of_expiry hlt]
          · have hlive2 : RedisEntry.live ⟨e.count + 1, e.expireAt⟩ t = true := by
              unfold RedisEntry.live at hlive ⊢
              cases hexp : e.expireAt with
              | none => rfl
              | some x => rw [hexp] at hlive; exact hlive
            simp [hincr, hc, redisGet, redisLookup_redisSet, hlive2]

theorem acquire_result_cases (rl : RateLimiter) (s : RedisStore) (t : ℕ)
    (id : String) :
    ((redisIncr s t (rl.getKey id)).2 ≤ rl.max_requests →
      (rl.acquire true s t id).2 = .ok ()) ∧
    (rl.max_requests < (redisIncr s t (rl.getKey id)).2 →
      ∃ m : ℕ, (rl.acquire true s t id).2
        = .error (.rateLimitError ("Rate limit exceeded. Reset in " ++ toString m))) := by
  unfold RateLimiter.acquire
  simp only [Bool.not_true, Bool.false_eq_true, if_false, gt_iff_lt]
  constructor
  · intro h
    rw [if_neg (by omega)]
  · intro h
    exact ⟨_, by rw [if_pos h]⟩

theorem generate_embedding_store (rl : RateLimiter) (storeOk : Bool)
    (s : RedisStore) (t : ℕ) (encode : String → List ℕ)
    (provider : String → Except PyError (List ℚ)) (text : String) :
    (generate_embedding rl storeOk s t encode provider text).1
      = (rl.acquire storeOk s t "generate_embedding").1 := by
  unfold generate_embedding
  cases h : (rl.acquire storeOk s t "generate_embedding").2 with
  | error e => simp [h]
  | ok u =>
      cases hv : validate_text encode text with
      | error e => simp [h, hv]
      | ok cleaned =>
          cases hp : provider cleaned with
          | error e => simp [h, hv, hp]
          | ok emb => simp [h, hv, hp]

theorem rate_msg_ne (x : String) :
    ("Rate limit exceeded. Reset in " ++ x) ≠ "Failed to check rate limit" := by
  intro h
  have hlen := congrArg String.length h
  rw [String.length_append] at hlen
  have hle : ("Rate limit exceeded. Reset in ").length
      ≤ ("Failed to check rate limit").length := by omega
  exact absurd hle (by decide)

theorem update_loop_eq_countP {α : Type} (embed : α → Except PyError (List ℚ)) :
    ∀ (js : List α) (acc : ℕ),
      update_loop embed js acc = acc + js.countP (fun j => (embed j).isOk) := by
  intro js
  induction js with
  | nil => intro acc; simp [update_loop]
  | cons j rest ih =>
      intro acc
      cases h : embed j with
      | ok v =>
          simp [update_loop, h, ih, List.countP_cons, Except.isOk, Except.toBool]
          omega
      | error e₂ =>
          simp [update_loop, h, ih, List.countP_cons, Except.isOk, Except.toBool]

/-! ## Claim theorems -/

/-- Claim C9: `get_limit_info` is read-only: it returns the remaining
capacity (`max(0, max_requests - count)`, never negative) and the reset
time of the current window, leaves the shared counter store unchanged,
and therefore interleaving it between two `acquire` calls cannot change
the outcome of the second `acquire`. -/
theorem get_limit_info_read_only (rl : RateLimiter) (s : RedisStore) (t : ℕ)
    (id : String) :
    (rl.get_limit_info s t id).1 = s ∧
    0 ≤ (rl.get_limit_info s t id).2.remaining ∧
    (rl.get_limit_info s t id).2.remaining
      = max 0 ((rl.max_requests : ℤ)
          - (((redisGet s t (rl.getKey id)).getD 0 : ℕ) : ℤ)) ∧
    (rl.get_limit_info s t id).2.reset_at
      = windowStart rl.window_seconds t + rl.window_seconds ∧
    ∀ (storeOk : Bool) (t₂ : ℕ) (id₂ : String),
      rl.acquire storeOk (rl.get_limit_info s t id).1 t₂ id₂
        = rl.acquire storeOk s t₂ id₂ := by
  have h1 : (rl.get_limit_info s t id).1 = s := by
    unfold RateLimiter.get_limit_info
    cases redisGet s t (rl.getKey id) <;> simp
  have h3 : (rl.get_limit_info s t id).2.remaining
      = max 0 ((rl.max_requests : ℤ)
          - (((redisGet s t (rl.getKey id)).getD 0 : ℕ) : ℤ)) := by
    unfold RateLimiter.get_limit_info
    cases h : redisGet s t (rl.getKey id) with
    | none =>
        simp only [h, Option.getD_none, Nat.cast_zero, sub_zero]
        exact (max_eq_right (by exact_mod_cast Nat.zero_le _)).symm
    | some c => simp [h]
  refine ⟨h1, ?_, h3, ?_, fun storeOk t₂ id₂ => by rw [h1]⟩
  · rw [h3]; exact le_max_left 0 _
  · unfold RateLimiter.get_limit_info
    cases redisGet s t (rl.getKey id) <;> simp

/-- Claim C10: the `@openai_rate_limiter` decorator on
`generate_embedding` acquires a slot before input validation runs, so
any call — including one whose text fails validation — increments the
shared counter under the `generate_embedding` identifier by exactly one,
and the increment is never rolled back; when the budget is not yet
exhausted, an invalid text still surfaces its `ValidationError` while
the slot stays consumed. -/
theorem generate_embedding_consumes_budget_before_validation
    (rl : RateLimiter) (s : RedisStore) (t : ℕ) (encode : String → List ℕ)
    (provider : String → Except PyError (List ℚ)) (text : String)
    (hW : 0 < rl.window_seconds) :
    redisGet ((generate_embedding rl true s t encode provider text).1) t
        (rl.getKey "generate_embedding")
      = some ((redisGet s t (rl.getKey "generate_embedding")).getD 0 + 1) ∧
    (∀ e, validate_text encode text = .error e →
      (redisGet s t (rl.getKey "generate_embedding")).getD 0 + 1
          ≤ rl.max_requests →
      (generate_embedding rl true s t encode provider text).2 = .error e) := by
  constructor
  · rw [generate_embedding_store]
    exact redisGet_acquire_true rl s t "generate_embedding" hW
  · intro e hv hbound
    have hincr : (redisIncr s t (rl.getKey "generate_embedding")).2
        = (redisGet s t (rl.getKey "generate_embedding")).getD 0 + 1 :=
      redisIncr_val s t (rl.getKey "generate_embedding")
    have hok : (rl.acquire true s t "generate_embedding").2 = .ok () :=
      (acquire_result_cases rl s t "generate_embedding").1 (by omega)
    unfold generate_embedding
    simp [hok, hv]

/-- Witness for C10 at a concrete input: on a fresh store, a call with
empty text (which fails validation) still sets the shared counter to 1
and surfaces the validation error. -/
theorem generate_embedding_consumes_budget_witness :
    redisGet ((generate_embedding ⟨"openai", 10, 60⟩ true [] 0 (fun _ => [])
        (fun _ => .error (.openAIError "x")) "").1) 0
        (RateLimiter.getKey ⟨"openai", 10, 60⟩ "generate_embedding")
      = some 1 ∧
    (generate_embedding ⟨"openai", 10, 60⟩ true [] 0 (fun _ => [])
        (fun _ => .error (.openAIError "x")) "").2
      = .error (.validationError "Text must be a non-empty string") := by
  have h := generate_embedding_consumes_budget_before_validation
    ⟨"openai", 10, 60⟩ [] 0 (fun _ => [])
    (fun _ => .error (.openAIError "x")) "" (by decide)
  exact ⟨h.1, h.2 _ (by decide) (by decide)⟩

/-- Claim C1 (code bug): the non-forced orchestration can never even
complete, let alone run idempotently.  Every `force=False` call to
`generate_recommendations` raises `AttributeError` at the freshness
check — `_should_generate_recommendations` reads
`user.last_recommendations`, a column the `User` model does not declare
— with the match table untouched; and even a forced call with a valid
embedding fails at the missing `JobMatchingService._get_repos` before
any `create_match` runs, so no call persists a record and the claimed
run-once baseline does not exist. -/
theorem generate_recommendations_never_persists
    (cosDist : List ℚ → List ℚ → ℚ) (pool : List JobRow)
    (table : List MatchRecord) (now : ℚ) (tid : ℤ)
    (uemb : Option (List ℚ)) (uprefs : Option (List (String × String)))
    (cvE : Option (List ℚ)) (prefs : Option (List (String × String)))
    (q : ℚ) (qs : List ℚ) :
    generate_recommendations cosDist pool table now (some ⟨tid, uemb, uprefs⟩)
        tid cvE prefs false
      = (table, .error (.attributeError
          "User object has no attribute last_recommendations")) ∧
    generate_recommendations cosDist pool table now
        (some ⟨tid, some (q :: qs), uprefs⟩) tid none none true
      = (table, .error (.attributeError
          "JobMatchingService object has no attribute _get_repos")) :=
  ⟨rfl, rfl⟩


/-- Counterexample to claim C4: `generate_embedding` performs no
dimension check — when the provider hands back a 3-element vector, the
call returns it successfully instead of failing. -/
theorem generate_embedding_returns_wrong_dimension :
    (generate_embedding ⟨"openai", 10, 60⟩ true [] 0
        (fun s => s.data.map Char.toNat) (fun _ => .ok [1, 2, 3]) "hello").2
      = .ok [1, 2, 3] ∧ ([1, 2, 3] : List ℚ).length ≠ 1536 := by
  exact ⟨rfl, by simp⟩

/-- Amended claim C4: `generate_embedding` itself returns the provider
vector unchanged, whatever its length; the dimension is validated only
in the callers (`update_job_embedding`), where a wrong-length vector
makes the call fail — with a `ValueError` swallowed into
`DatabaseError`, not a distinct provider-contract error — and nothing
is upserted. -/
theorem embed_dimension_checked_only_in_caller
    (rl : RateLimiter) (s : RedisStore) (t : ℕ) (encode : String → List ℕ)
    (provider : String → Except PyError (List ℚ)) (text cleaned : String)
    (v : List ℚ) (desc : String) (job_id : ℕ)
    (hacq : (rl.acquire true s t "generate_embedding").2 = .ok ())
    (hval : validate_text encode text = .ok cleaned)
    (hprov : provider cleaned = .ok v)
    (hpd : provider desc = .ok v)
    (hdim : v.length ≠ 1536) :
    (generate_embedding rl true s t encode provider text).2 = .ok v ∧
    update_job_embedding (some desc) provider job_id
      = .error (.databaseError "Failed to update job embedding") := by
  constructor
  · unfold generate_embedding
    simp [hacq, hval, hprov]
  · unfold update_job_embedding
    simp [hpd, hdim]

/-- Witness for the amended C4 at a concrete input: a provider that
returns a 3-element vector. -/
theorem embed_dimension_checked_only_in_caller_witness :
    (generate_embedding ⟨"openai", 10, 60⟩ true [] 0
        (fun s => s.data.map Char.toNat) (fun _ => .ok [1, 2, 3]) "hi").2
      = .ok [1, 2, 3] ∧
    update_job_embedding (some "a job") (fun _ => .ok [1, 2, 3]) 5
      = .error (.databaseError "Failed to update job embedding") :=
  embed_dimension_checked_only_in_caller ⟨"openai", 10, 60⟩ [] 0
    (fun s => s.data.map Char.toNat) (fun _ => .ok [1, 2, 3]) "hi" "hi"
    [1, 2, 3] "a job" 5 (by decide) (by decide) rfl rfl (by simp)

/-- Counterexample to claim C5: a whitespace-only text is empty after
trimming, yet validation accepts it — the falsy-text check runs before
the strip, so `" "` sails through and is returned as the empty
string. -/
theorem validate_text_accepts_whitespace_only :
    validate_text (fun s => s.data.map Char.toNat) " " = .ok "" ∧
    clean_text " " = "" := by
  exact ⟨by decide, by decide⟩

/-- Amended claim C5: validation rejects only texts that are empty
before cleaning (`ValidationError`); a text whose token count — taken
by the tokenizer on the cleaned text — exceeds the 8191-token budget is
rejected with a `ValidationError` naming the excess (there is no
distinct TextTooLong class); any other text is returned cleaned in
full, never truncated. -/
theorem validate_text_spec (encode : String → List ℕ) (text : String) :
    (text = "" → validate_text encode text
        = .error (.validationError "Text must be a non-empty string")) ∧
    (text ≠ "" → (encode (clean_text text)).length > max_text_length →
      validate_text encode text = .error (.validationError
        ("Text is too long (" ++ toString (encode (clean_text text)).length
          ++ " tokens). Maximum is " ++ toString max_text_length ++ " tokens."))) ∧
    (text ≠ "" → (encode (clean_text text)).length ≤ max_text_length →
      validate_text encode text = .ok (clean_text text)) := by
  refine ⟨fun h => ?_, fun h h₂ => ?_, fun h h₂ => ?_⟩
  · simp [validate_text, h]
  · simp [validate_text, h, h₂]
  · simp [validate_text, h]
    omega

/-- Witness for the amended C5 at concrete inputs: empty text fails,
an over-budget text fails with the too-long error, and a valid text is
returned cleaned and untruncated. -/
theorem validate_text_spec_witness :
    validate_text (fun _ => List.replicate 9000 0) ""
      = .error (.validationError "Text must be a non-empty string") ∧
    validate_text (fun _ => List.replicate 9000 0) "x"
      = .error (.validationError
          ("Text is too long ("
            ++ toString ((fun (_ : String) => List.replicate 9000 (0 : ℕ)) (clean_text "x")).length
            ++ " tokens). Maximum is " ++ toString max_text_length ++ " tokens.")) ∧
    validate_text (fun s => s.data.map Char.toNat) "hello" = .ok (clean_text "hello") := by
  refine ⟨(validate_text_spec (fun _ => List.replicate 9000 0) "").1 rfl,
    (validate_text_spec (fun _ => List.replicate 9000 0) "x").2.1 (by decide)
      (by simp only [List.length_replicate, max_text_length]; omega),
    (validate_text_spec (fun s => s.data.map Char.toNat) "hello").2.2 (by decide) (by decide)⟩

/-- Counterexample to claim C6: `refresh_job_matches` for a user with
no CandidateDocument does not fail — it silently returns an empty
match list. -/
theorem refresh_job_matches_silent_on_missing_cv :
    refresh_job_matches (fun _ _ => 0) [] none (7/10) 50 = .ok [] := rfl

/-- Amended claim C6: no entry point implements the claimed
missing-document contract, and no NoDocument/NoEmbedding error classes
exist.  `refresh_job_matches` silently returns `[]` when the user has
no CandidateDocument, and wraps the no-embedding `ValueError` into a
generic `DatabaseError`; `match_jobs_for_user` fails identically for
every input — with the `JobMatchingError` (EXECUTION_ERROR) wrapper
produced by the misbound `safe_execute` call, whose message is the
misbound telegram id — before the user is ever looked up, so its
missing-CV branch is unreachable; `generate_recommendations` raises
`UserError` for a user without a CV embedding only on forced runs,
because a non-forced run fails earlier at the nonexistent
`last_recommendations` attribute.  In every case no match record is
created. -/
theorem missing_document_behaviour (cosDist : List ℚ → List ℚ → ℚ)
    (pool : List JobRow) (min_score : ℚ) (limit cv_id : ℕ)
    (table : List MatchRecord) (now : ℚ) (tid : ℤ)
    (prefs : Option (List (String × String)))
    (fm : List ℚ → ℕ → List (ℕ × ℚ)) (gj : List ℕ → List JobRow) :
    refresh_job_matches cosDist pool none min_score limit = .ok [] ∧
    refresh_job_matches cosDist pool (some ⟨cv_id, none⟩) min_score limit
      = .error (.databaseError "Failed to refresh job matches") ∧
    match_jobs_for_user fm gj tid limit
      = .error (.jobMatchingError (toString tid)) ∧
    generate_recommendations cosDist pool table now (some ⟨tid, none, prefs⟩)
        tid none none true
      = (table, .error (.userError "No CV embedding found")) ∧
    generate_recommendations cosDist pool table now (some ⟨tid, none, prefs⟩)
        tid none none false
      = (table, .error (.attributeError
          "User object has no attribute last_recommendations")) :=
  ⟨rfl, rfl, rfl, rfl, rfl⟩


/-- Counterexample to claim C7: a batch of two jobs where the second
item raises completes without raising, but its summary carries no
`failed` and no `processed` count — only `success` and
`updated_count`. -/
theorem update_job_embeddings_no_failed_count :
    update_job_embeddings (.ok [0, 1])
        (fun j => if j = 0 then .ok [] else .error (.openAIError "x"))
      = .ok [("success", .bool true), ("updated_count", .num 1)] ∧
    dict_val [("success", DictVal.bool true), ("updated_count", DictVal.num 1)]
        "failed" = none ∧
    dict_val [("success", DictVal.bool true), ("updated_count", DictVal.num 1)]
        "processed" = none := by
  exact ⟨rfl, by decide, by decide⟩

/-- Amended claim C7: `update_job_embeddings` never raises for per-item
failures — it iterates every item of the batch and returns
`{"success": true, "updated_count": n}` where `n` counts the items
whose embedding succeeded (N - k for k failing items); it reports no
`processed` or `failed` counts; only a batch-level failure (the job
list cannot be read) propagates. -/
theorem update_job_embeddings_summary {α : Type} (js : List α)
    (embed : α → Except PyError (List ℚ)) (e : PyError) :
    update_job_embeddings (.ok js) embed
      = .ok [("success", .bool true),
             ("updated_count", .num (js.countP (fun j => (embed j).isOk)))] ∧
    update_job_embeddings (.error e : Except PyError (List α)) embed
      = .error e := by
  refine ⟨?_, rfl⟩
  simp [update_job_embeddings, update_loop_eq_countP]

/-- Counterexample to claim C8: when the counter store is unavailable
the limiter raises `RateLimitError` — the very same exception class
that budget exhaustion raises — so no distinct LimiterUnavailable error
exists; the two outcomes differ only in their message. -/
theorem limiter_unavailable_same_class :
    ∃ m₁ m₂ : String,
      ((⟨"openai", 0, 60⟩ : RateLimiter).acquire false [] 0 "request").2
        = .error (.rateLimitError m₁) ∧
      ((⟨"openai", 0, 60⟩ : RateLimiter).acquire true [] 0 "request").2
        = .error (.rateLimitError m₂) ∧
      PyError.exClass (.rateLimitError m₁) = PyError.exClass (.rateLimitError m₂) ∧
      m₁ ≠ m₂ :=
  ⟨"Failed to check rate limit",
   "Rate limit exceeded. Reset in " ++ toString (60 : ℕ),
   rfl, rfl, rfl, fun h => rate_msg_ne _ h.symm⟩

/-- Amended claim C8: the limiter fails closed — a store failure makes
`acquire` fail (blocking the caller) with
`RateLimitError "Failed to check rate limit"`, leaving the counter
untouched; this is the same exception class as the budget-exhausted
`RateLimitError`, and the two are distinguishable only by message. -/
theorem limiter_fails_closed (rl : RateLimiter) (s : RedisStore) (t : ℕ)
    (id : String) :
    rl.acquire false s t id
      = (s, .error (.rateLimitError "Failed to check rate limit")) ∧
    (∀ e, (rl.acquire true s t id).2 = .error e →
      e.exClass = "RateLimitError" ∧
      ∃ m : ℕ, e = .rateLimitError ("Rate limit exceeded. Reset in " ++ toString m) ∧
        ("Rate limit exceeded. Reset in " ++ toString m)
          ≠ "Failed to check rate limit") := by
  refine ⟨rfl, ?_⟩
  intro e he
  by_cases h : rl.max_requests < (redisIncr s t (rl.getKey id)).2
  · obtain ⟨m, hm⟩ := (acquire_result_cases rl s t id).2 h
    rw [he] at hm
    cases hm
    exact ⟨rfl, m, rfl, rate_msg_ne _⟩
  · have hok := (acquire_result_cases rl s t id).1 (by omega)
    rw [hok] at he
    exact absurd he (by simp)

/-- Witness for the amended C8 at a concrete input: with a limit of 0, a
store failure and an exhausted budget raise errors of the same class
with different messages. -/
theorem limiter_fails_closed_witness :
    ((⟨"openai", 0, 60⟩ : RateLimiter).acquire false [] 0 "request")
      = ([], .error (.rateLimitError "Failed to check rate limit")) ∧
    ((PyError.rateLimitError
        ("Rate limit exceeded. Reset in " ++ toString (60 : ℕ))).exClass
      = "RateLimitError" ∧
     ∃ m : ℕ, PyError.rateLimitError ("Rate limit exceeded. Reset in " ++ toString (60 : ℕ))
        = .rateLimitError ("Rate limit exceeded. Reset in " ++ toString m) ∧
       ("Rate limit exceeded. Reset in " ++ toString m)
         ≠ "Failed to check rate limit") := by
  have h := limiter_fails_closed ⟨"openai", 0, 60⟩ [] 0 "request"
  exact ⟨h.1, h.2 _ rfl⟩

theorem acquire_get_none_entry (rl : RateLimiter) (s : RedisStore) (t : ℕ)
    (id : String) (h : redisGet s t (rl.getKey id) = none) :
    redisLookup ((rl.acquire true s t id).1) (rl.getKey id)
      = some ⟨1, some (windowStart rl.window_seconds t + rl.window_seconds)⟩ := by
  rw [acquire_store_eq, redisIncr_of_get_none h]
  simp [redisExpireAt, redisLookup_redisSet]

theorem acquire_loaded_entry (rl : RateLimiter) (s : RedisStore) (t : ℕ)
    (id : String) (c x : ℕ)
    (hl : redisLookup s (rl.getKey id) = some ⟨c, some x⟩)
    (hc : 1 ≤ c) (hlive : t < x) :
    redisLookup ((rl.acquire true s t id).1) (rl.getKey id)
        = some ⟨c + 1, some x⟩ ∧
    (redisIncr s t (rl.getKey id)).2 = c + 1 := by
  have hincr : redisIncr s t (rl.getKey id)
      = (redisSet s (rl.getKey id) ⟨c + 1, some x⟩, c + 1) := by
    unfold redisIncr
    rw [hl]
    simp [RedisEntry.live_of_expiry hlive]
  refine ⟨?_, by rw [hincr]⟩
  rw [acquire_store_eq, hincr]
  simp only
  rw [if_neg (by omega : ¬(c + 1 = 1))]
  exact redisLookup_redisSet s (rl.getKey id) ⟨c + 1, some x⟩

theorem acquireSeq_loaded (rl : RateLimiter) (w : ℕ) (id : String)
    (hW : 0 < rl.window_seconds) :
    ∀ (ts : List ℕ) (s : RedisStore) (c : ℕ),
      1 ≤ c →
      (∀ t ∈ ts, windowStart rl.window_seconds t = w) →
      redisLookup s (rl.getKey id) = some ⟨c, some (w + rl.window_seconds)⟩ →
      redisLookup (acquireSeq rl s ts id).1 (rl.getKey id)
          = some ⟨c + ts.length, some (w + rl.window_seconds)⟩ ∧
      ∀ i, i < ts.length →
        (c + i + 1 ≤ rl.max_requests →
          (acquireSeq rl s ts id).2[i]? = some (.ok ())) ∧
        (rl.max_requests < c + i + 1 →
          ∃ m : ℕ, (acquireSeq rl s ts id).2[i]?
            = some (.error (.rateLimitError
                ("Rate limit exceeded. Reset in " ++ toString m))))
  | [], s, c, hc, hts, hl => by
      refine ⟨by simpa [acquireSeq] using hl, ?_⟩
      intro i hi
      simp at hi
  | t :: rest, s, c, hc, hts, hl => by
      have ht : windowStart rl.window_seconds t = w := hts t (by simp)
      have hlive : t < w + rl.window_seconds := by
        rw [← ht]; exact lt_windowStart_add hW t
      have hstep := acquire_loaded_entry rl s t id c (w + rl.window_seconds) hl hc hlive
      have ih := acquireSeq_loaded rl w id hW rest ((rl.acquire true s t id).1) (c + 1)
          (by omega) (fun t₂ h₂ => hts t₂ (by simp [h₂])) hstep.1
      constructor
      · simp only [acquireSeq, List.length_cons]
        rw [show c + (rest.length + 1) = c + 1 + rest.length from by omega]
        exact ih.1
      · intro i hi
        cases i with
        | zero =>
            constructor
            · intro hb
              simp only [acquireSeq, List.getElem?_cons_zero, Option.some.injEq]
              exact (acquire_result_cases rl s t id).1 (by omega)
            · intro hb
              obtain ⟨m, hm⟩ := (acquire_result_cases rl s t id).2 (by omega)
              refine ⟨m, ?_⟩
              simp only [acquireSeq, List.getElem?_cons_zero, Option.some.injEq]
              exact hm
        | succ j =>
            have hj : j < rest.length := by
              simpa using hi
            have hres := ih.2 j hj
            constructor
            · intro hb
              have := hres.1 (by omega)
              simpa [acquireSeq, List.getElem?_cons_succ] using this
            · intro hb
              obtain ⟨m, hm⟩ := hres.2 (by omega)
              refine ⟨m, ?_⟩
              simpa [acquireSeq, List.getElem?_cons_succ] using hm

/-- Claim C3: rate limiter boundary.  Starting from a store with no key
for the identity, a sequence of `L + 1` `acquire` calls inside one
aligned window leaves the shared counter at `L + 1` with its expiry set
at the window start plus the window length (set by the first call); the
first `L` calls succeed, the `(L+1)`-th fails with the rate-limit
exceeded `RateLimitError`; and an `acquire` at any time from the end of
the window on succeeds again. -/
theorem rate_limiter_boundary (pref id : String) (L W w : ℕ) (ts : List ℕ)
    (t₂ : ℕ) (s₀ : RedisStore) (hW : 0 < W) (hL : 1 ≤ L)
    (habs : redisLookup s₀ ((⟨pref, L, W⟩ : RateLimiter).getKey id) = none)
    (hts : ∀ t ∈ ts, windowStart W t = w)
    (hlen : ts.length = L + 1)
    (ht₂ : w + W ≤ t₂) :
    redisLookup (acquireSeq ⟨pref, L, W⟩ s₀ ts id).1
        ((⟨pref, L, W⟩ : RateLimiter).getKey id)
      = some ⟨L + 1, some (w + W)⟩ ∧
    (∀ i, i < L → (acquireSeq ⟨pref, L, W⟩ s₀ ts id).2[i]? = some (.ok ())) ∧
    (∃ m : ℕ, (acquireSeq ⟨pref, L, W⟩ s₀ ts id).2[L]?
      = some (.error (.rateLimitError
          ("Rate limit exceeded. Reset in " ++ toString m)))) ∧
    ((⟨pref, L, W⟩ : RateLimiter).acquire true
        (acquireSeq ⟨pref, L, W⟩ s₀ ts id).1 t₂ id).2 = .ok () := by
  set rl : RateLimiter := ⟨pref, L, W⟩ with hrl
  have hmax : rl.max_requests = L := rfl
  have hwin : rl.window_seconds = W := rfl
  cases ts with
  | nil => simp at hlen
  | cons t₀ rest =>
      have hrest : rest.length = L := by simpa using hlen
      have ht₀ : windowStart W t₀ = w := hts t₀ (by simp)
      have hget₀ : redisGet s₀ t₀ (rl.getKey id) = none := by
        unfold redisGet; rw [habs]
      have hincr₀ : (redisIncr s₀ t₀ (rl.getKey id)).2 = 1 := by
        rw [redisIncr_of_get_none hget₀]
      have hentry₀ : redisLookup ((rl.acquire true s₀ t₀ id).1) (rl.getKey id)
          = some ⟨1, some (w + W)⟩ := by
        have := acquire_get_none_entry rl s₀ t₀ id hget₀
        rw [show windowStart rl.window_seconds t₀ = w from ht₀] at this
        exact this
      have hok₀ : (rl.acquire true s₀ t₀ id).2 = .ok () :=
        (acquire_result_cases rl s₀ t₀ id).1 (by rw [hincr₀]; exact hL)
      have ih := acquireSeq_loaded rl w id hW rest ((rl.acquire true s₀ t₀ id).1) 1
          (le_refl 1) (fun t₃ h₃ => hts t₃ (by simp [h₃])) hentry₀
      have hfinal : redisLookup (acquireSeq rl s₀ (t₀ :: rest) id).1 (rl.getKey id)
          = some ⟨L + 1, some (w + W)⟩ := by
        have h := ih.1
        rw [hrest] at h
        simp only [acquireSeq]
        rw [show L + 1 = 1 + L from by omega]
        exact h
      refine ⟨hfinal, ?_, ?_, ?_⟩
      · intro i hi
        cases i with
        | zero =>
            simp only [acquireSeq, List.getElem?_cons_zero, Option.some.injEq]
            exact hok₀
        | succ j =>
            have := (ih.2 j (by omega)).1 (by omega)
            simpa [acquireSeq, List.getElem?_cons_succ] using this
      · obtain ⟨lp, rfl⟩ : ∃ lp, L = lp + 1 := ⟨L - 1, by omega⟩
        obtain ⟨m, hm⟩ := (ih.2 lp (by omega)).2 (by omega)
        refine ⟨m, ?_⟩
        simpa [acquireSeq, List.getElem?_cons_succ] using hm
      · have hdead : redisGet (acquireSeq rl s₀ (t₀ :: rest) id).1 t₂ (rl.getKey id)
            = none := by
          unfold redisGet
          rw [hfinal]
          simp only [RedisEntry.live]
          simp only [decide_eq_true_eq]
          rw [if_neg (by omega : ¬(t₂ < w + W))]
        have hincr₂ : (redisIncr (acquireSeq rl s₀ (t₀ :: rest) id).1 t₂
            (rl.getKey id)).2 = 1 := by
          rw [redisIncr_of_get_none hdead]
        exact (acquire_result_cases rl _ t₂ id).1 (by rw [hincr₂]; exact hL)

/-- Witness for C3 at a concrete input: limit 2, window 60, three calls
at times 0, 10 and 30 inside the first window, then a call at time
60. -/
theorem rate_limiter_boundary_witness :
    redisLookup (acquireSeq ⟨"openai", 2, 60⟩ [] [0, 10, 30] "gen").1
        ((⟨"openai", 2, 60⟩ : RateLimiter).getKey "gen")
      = some ⟨3, some 60⟩ ∧
    (∀ i, i < 2 → (acquireSeq ⟨"openai", 2, 60⟩ [] [0, 10, 30] "gen").2[i]?
      = some (.ok ())) ∧
    (∃ m : ℕ, (acquireSeq ⟨"openai", 2, 60⟩ [] [0, 10, 30] "gen").2[2]?
      = some (.error (.rateLimitError
          ("Rate limit exceeded. Reset in " ++ toString m)))) ∧
    ((⟨"openai", 2, 60⟩ : RateLimiter).acquire true
        (acquireSeq ⟨"openai", 2, 60⟩ [] [0, 10, 30] "gen").1 60 "gen").2
      = .ok () :=
  rate_limiter_boundary "openai" "gen" 2 60 0 [0, 10, 30] 60 [] (by decide)
    (by decide) rfl (by decide) rfl (by decide)

theorem row_passes_le (m : ℚ) (location seniority service : Option String)
    (q : JobRow × ℚ) (h : row_passes m location seniority service q = true) :
    m ≤ q.2 := by
  unfold row_passes at h
  simp only [Bool.and_eq_true, decide_eq_true_eq] at h
  exact h.1.1.1

theorem scored_pool_mem (cosDist : List ℚ → List ℚ → ℚ) (pool : List JobRow)
    (query : List ℚ) (q : JobRow × ℚ)
    (hq : q ∈ scored_pool cosDist pool query) :
    ∃ j ∈ pool, ∃ e, j.embedding = some e ∧ q = (j, 1 - cosDist e query) := by
  unfold scored_pool at hq
  obtain ⟨j, hj, hjq⟩ := List.mem_filterMap.mp hq
  cases hemb : j.embedding with
  | none => rw [hemb] at hjq; simp at hjq
  | some e =>
      rw [hemb] at hjq
      simp only [Option.some.injEq] at hjq
      exact ⟨j, hj, e, hemb, hjq.symm⟩

/-- Claim C2: the similarity query filters by the threshold before
applying the limit, so every returned pair scores at least
`min_similarity`, every returned pair is a pool row scored by the
cosine operator, no pool row whose similarity is below the threshold
ever appears, the limit truncates the filtered set (all qualifying rows
are returned whenever the filtered set fits inside the limit), and the
result is ordered best score first. -/
theorem find_similar_jobs_spec (cosDist : List ℚ → List ℚ → ℚ)
    (pool : List JobRow) (query : List ℚ) (min_similarity : ℚ) (limit : ℕ)
    (location seniority service : Option String)
    (hnd : (pool.map JobRow.id).Nodup) :
    (∀ p ∈ find_similar_jobs cosDist pool query min_similarity limit
        location seniority service, min_similarity ≤ p.2) ∧
    (∀ p ∈ find_similar_jobs cosDist pool query min_similarity limit
        location seniority service,
      ∃ j ∈ pool, ∃ e, j.embedding = some e ∧ p.1 = j.id
        ∧ p.2 = 1 - cosDist e query) ∧
    (∀ j ∈ pool, ∀ e, j.embedding = some e →
      1 - cosDist e query < min_similarity →
      ∀ sc, (j.id, sc) ∉ find_similar_jobs cosDist pool query min_similarity
        limit location seniority service) ∧
    ((find_similar_jobs cosDist pool query min_similarity limit
        location seniority service).length
      = min limit (passing_pool cosDist pool query min_similarity
          location seniority service).length) ∧
    (∀ j ∈ pool, ∀ e, j.embedding = some e →
      row_passes min_similarity location seniority service
        (j, 1 - cosDist e query) = true →
      (passing_pool cosDist pool query min_similarity
          location seniority service).length ≤ limit →
      (j.id, 1 - cosDist e query) ∈ find_similar_jobs cosDist pool query
        min_similarity limit location seniority service) ∧
    List.Sorted (fun a b : ℕ × ℚ => b.2 ≤ a.2)
      (find_similar_jobs cosDist pool query min_similarity limit
        location seniority service) := by
  have hsrc : ∀ p ∈ find_similar_jobs cosDist pool query min_similarity limit
      location seniority service,
      ∃ q, q ∈ passing_pool cosDist pool query min_similarity
          location seniority service ∧ p = (q.1.id, q.2) := by
    intro p hp
    unfold find_similar_jobs at hp
    obtain ⟨q, hq, hpq⟩ := List.mem_map.mp hp
    exact ⟨q, (List.perm_insertionSort scoreDesc _).subset
      (List.mem_of_mem_take hq), hpq.symm⟩
  refine ⟨?_, ?_, ?_, ?_, ?_, ?_⟩
  · intro p hp
    obtain ⟨q, hqP, rfl⟩ := hsrc p hp
    exact row_passes_le _ _ _ _ _ (List.mem_filter.mp hqP).2
  · intro p hp
    obtain ⟨q, hqP, rfl⟩ := hsrc p hp
    obtain ⟨j, hj, e, hemb, hq⟩ :=
      scored_pool_mem cosDist pool query q (List.mem_filter.mp hqP).1
    exact ⟨j, hj, e, hemb, by rw [hq], by rw [hq]⟩
  · intro j hj e hemb hlow sc hmem
    obtain ⟨q, hqP, heq⟩ := hsrc _ hmem
    have hid : j.id = q.1.id := congrArg Prod.fst heq
    have hfil := List.mem_filter.mp hqP
    obtain ⟨j₂, hj₂, e₂, hemb₂, hq⟩ := scored_pool_mem cosDist pool query q hfil.1
    have hj₂j : j₂ = j := by
      apply List.inj_on_of_nodup_map hnd hj₂ hj
      rw [hq] at hid
      exact hid.symm
    have he₂e : e₂ = e := by
      rw [hj₂j] at hemb₂
      exact Option.some.inj (hemb₂.symm.trans hemb)
    have hscore := row_passes_le _ _ _ _ _ hfil.2
    rw [hq] at hscore
    simp only at hscore
    rw [he₂e] at hscore
    exact absurd hscore (not_le.mpr hlow)
  · unfold find_similar_jobs
    rw [List.length_map, List.length_take,
      (List.perm_insertionSort scoreDesc _).length_eq]
  · intro j hj e hemb hpass hlen
    have hq_scored : (j, 1 - cosDist e query) ∈ scored_pool cosDist pool query := by
      unfold scored_pool
      exact List.mem_filterMap.mpr ⟨j, hj, by rw [hemb]⟩
    have hqP : (j, 1 - cosDist e query) ∈ passing_pool cosDist pool query
        min_similarity location seniority service :=
      List.mem_filter.mpr ⟨hq_scored, hpass⟩
    have hsorted_mem : (j, 1 - cosDist e query)
        ∈ List.insertionSort scoreDesc (passing_pool cosDist pool query
            min_similarity location seniority service) :=
      (List.perm_insertionSort scoreDesc _).mem_iff.mpr hqP
    have htake : List.take limit (List.insertionSort scoreDesc
        (passing_pool cosDist pool query min_similarity location seniority service))
        = List.insertionSort scoreDesc (passing_pool cosDist pool query
            min_similarity location seniority service) :=
      List.take_of_length_le
        (by rw [(List.perm_insertionSort scoreDesc _).length_eq]; exact hlen)
    unfold find_similar_jobs
    rw [htake]
    exact List.mem_map.mpr ⟨(j, 1 - cosDist e query), hsorted_mem, rfl⟩
  · have hs := List.sorted_insertionSort scoreDesc
      (passing_pool cosDist pool query min_similarity location seniority service)
    unfold find_similar_jobs
    exact List.Pairwise.map _ (fun a b h => h)
      (List.Pairwise.sublist (List.take_sublist _ _) hs)

/-- The pool of spec scenario 1: job A matches exactly, job B is
orthogonal, job C is close. -/
def c2Pool : List JobRow :=
  [⟨1, some [1, 0, 0], true, "", "", ""⟩,
   ⟨2, some [0, 1, 0], true, "", "", ""⟩,
   ⟨3, some [9/10, 1/10, 0], true, "", "", ""⟩]

/-- A concrete stand-in for the pgvector cosine-distance operator on
scenario 1: distance 0 for A, 1 for B, 1/20 for C. -/
def c2Dist : List ℚ → List ℚ → ℚ := fun e _ =>
  if e = [1, 0, 0] then 0 else if e = [0, 1, 0] then 1 else 1/20

/-- Witness for C2 at spec scenario 1 (query `[1,0,0]`, threshold 0.9,
limit 10). -/
theorem find_similar_jobs_spec_witness :
    (c2Pool.map JobRow.id).Nodup ∧
    ((∀ p ∈ find_similar_jobs c2Dist c2Pool [1, 0, 0] (9/10) 10 none none none,
        (9/10 : ℚ) ≤ p.2) ∧
     (∀ p ∈ find_similar_jobs c2Dist c2Pool [1, 0, 0] (9/10) 10 none none none,
       ∃ j ∈ c2Pool, ∃ e, j.embedding = some e ∧ p.1 = j.id
         ∧ p.2 = 1 - c2Dist e [1, 0, 0]) ∧
     (∀ j ∈ c2Pool, ∀ e, j.embedding = some e →
       1 - c2Dist e [1, 0, 0] < 9/10 →
       ∀ sc, (j.id, sc) ∉ find_similar_jobs c2Dist c2Pool [1, 0, 0] (9/10) 10
         none none none) ∧
     ((find_similar_jobs c2Dist c2Pool [1, 0, 0] (9/10) 10
         none none none).length
       = min 10 (passing_pool c2Dist c2Pool [1, 0, 0] (9/10)
           none none none).length) ∧
     (∀ j ∈ c2Pool, ∀ e, j.embedding = some e →
       row_passes (9/10) none none none (j, 1 - c2Dist e [1, 0, 0]) = true →
       (passing_pool c2Dist c2Pool [1, 0, 0] (9/10)
           none none none).length ≤ 10 →
       (j.id, 1 - c2Dist e [1, 0, 0]) ∈ find_similar_jobs c2Dist c2Pool
         [1, 0, 0] (9/10) 10 none none none) ∧
     List.Sorted (fun a b : ℕ × ℚ => b.2 ≤ a.2)
       (find_similar_jobs c2Dist c2Pool [1, 0, 0] (9/10) 10 none none none)) :=
  ⟨by decide,
   find_similar_jobs_spec c2Dist c2Pool [1, 0, 0] (9/10) 10 none none none
     (by decide)⟩
